import Mathlib

set_option maxHeartbeats 1000000

/-!
Shallow embedding of the bizclaw-brain local inference engine
(`src/crates/bizclaw-brain/src/lib.rs`).

Conventions: Rust `u32`/`usize` values are modelled as `Nat` (no arithmetic
performed by the embedded code can overflow on the inputs considered), `f32`
literals as exact rationals (`Rat`), Rust strings and byte strings as their
byte sequences (`List Nat`), paths as their file-name component (`String`),
and fallible functions as `Except`.  The submodules `tokenizer`, `sampler`,
`mmap`, `gguf`, `model` and `kv_cache` are declared by `lib.rs` but their
sources are not part of the snapshot; definitions standing in for them are
modelled from the spec and carry a doc comment saying so.  `lib.rs` itself is
embedded verbatim below (`BrainConfig`, `BrainEngine`, `LoadedModel`,
`load_model`, `is_loaded`, `generate`, `forward_token`, `generate_json`,
`model_info`).
-/

/-- Modelled from the spec: the shared error type of `bizclaw-core` is not in
the snapshot.  `lib.rs` constructs `BizClawError::Brain(String)`; load-time
failures are IoError / FormatError per spec §7. -/
inductive BizClawError where
  | brain : String → BizClawError
  | ioError : String → BizClawError
  | formatError : String → BizClawError
  deriving DecidableEq, Repr

/-- Modelled from the spec (§3 Tokenizer, §4.6): the `tokenizer` module is not
in the snapshot.  A BPE tokenizer holds a token-id → byte-string vocabulary,
a ranked merge-rule sequence `(a, b, c)` (adjacent pair `a b` merges to `c`),
the byte-level pre-tokenization table `byte_ids` (byte value → token id,
unknown bytes falling back to `unk_id`), and designated begin/end/unknown
ids.  Immutable after load. -/
structure BpeTokenizer where
  vocab : List (List Nat)
  merges : List (Nat × Nat × Nat)
  byte_ids : List Nat
  unk_id : Nat
  bos_id : Nat
  eos_id : Nat
  deriving DecidableEq, Repr

/-- Byte string of a token id (empty for an out-of-vocabulary id). -/
def BpeTokenizer.tokenStr (t : BpeTokenizer) (id : Nat) : List Nat :=
  t.vocab.getD id []

/-- Modelled from the spec (§4.6 Decode): concatenate the token strings in
order. -/
def BpeTokenizer.decode (t : BpeTokenizer) (toks : List Nat) : List Nat :=
  toks.foldr (fun id acc => t.tokenStr id ++ acc) []

/-- Replace the leftmost adjacent occurrence of the pair `a b` by `c`;
`none` when the pair does not occur. -/
def applyRuleOnce (a b c : Nat) : List Nat → Option (List Nat)
  | [] => none
  | [_] => none
  | x :: y :: rest =>
    if x = a ∧ y = b then some (c :: rest)
    else (applyRuleOnce a b c (y :: rest)).map (fun t => x :: t)

/-- First rule of the ranked sequence that applies, already applied;
`none` when no rule applies. -/
def findMerge : List (Nat × Nat × Nat) → List Nat → Option (List Nat)
  | [], _ => none
  | (a, b, c) :: rest, toks =>
    match applyRuleOnce a b c toks with
    | some t => some t
    | none => findMerge rest toks

/-- Modelled from the spec (§4.6 Encode): iteratively apply the
lowest-ranked applicable merge rule until none applies.  Every applied merge
shortens the sequence, so `fuel` bounds the iteration. -/
def applyMerges (merges : List (Nat × Nat × Nat)) : Nat → List Nat → List Nat
  | 0, toks => toks
  | fuel + 1, toks =>
    match findMerge merges toks with
    | none => toks
    | some t => applyMerges merges fuel t

/-- Modelled from the spec (§4.6 Encode): byte-level pre-tokenization
(unknown bytes map to the designated fallback id), then greedy ranked
merging. -/
def BpeTokenizer.encode (t : BpeTokenizer) (s : List Nat) : List Nat :=
  applyMerges t.merges s.length (s.map fun b => t.byte_ids.getD b t.unk_id)

def BpeTokenizer.vocab_size (t : BpeTokenizer) : Nat :=
  t.vocab.length

/-- Modelled from the spec (§4.6): the minimal byte-level fallback tokenizer —
every byte is its own token, no merges.  Begin/end ids use the conventional
1/2 slots of the byte vocabulary. -/
def BpeTokenizer.fallback : BpeTokenizer where
  vocab := (List.range 256).map (fun b => [b])
  merges := []
  byte_ids := List.range 256
  unk_id := 0
  bos_id := 1
  eos_id := 2

/-- Modelled from the spec (§3 ModelParams): resolved hyperparameters,
immutable once derived. -/
structure ModelParams where
  dim : Nat
  n_layers : Nat
  n_heads : Nat
  n_kv_heads : Nat
  head_dim : Nat
  vocab_size : Nat
  max_seq_len : Nat
  deriving DecidableEq, Repr

/-- Modelled from the spec (§4.1, §6): the parsed GGUF container — typed
metadata resolving to the architecture hyperparameters, plus the tokenizer
section, `none` standing for an absent or malformed section. -/
structure Gguf where
  params_meta : ModelParams
  tokenizerSection : Option BpeTokenizer
  deriving DecidableEq, Repr

/-- Modelled from the spec (§4.2 Mapped Tensor Store): the memory-mapped
file — parsed container, file size in bytes, and the raw tensor bytes. -/
structure MmapModel where
  gguf : Gguf
  fsize : Nat
  data : List Nat
  deriving DecidableEq, Repr

def MmapModel.file_size (m : MmapModel) : Nat :=
  m.fsize

/-- Modelled from the spec: `model::ModelParams::from_gguf` reads the
required architecture keys out of the metadata. -/
def ModelParams.from_gguf (g : Gguf) : ModelParams :=
  g.params_meta

/-- Modelled from the spec (§4.6): `tokenizer::BpeTokenizer::from_gguf` fails
when the file's tokenizer section is absent or malformed. -/
def BpeTokenizer.from_gguf (meta : Gguf) : Except String BpeTokenizer :=
  match meta.tokenizerSection with
  | none => Except.error "missing or malformed tokenizer section"
  | some t => Except.ok t

/-- Modelled from the spec (§3 KvCache): per-layer K/V buffers shaped
`[max_seq_len, n_kv_heads, head_dim]` and a cursor starting at 0.  No claim
touches its contents, so only the shape and cursor are carried. -/
structure KvCache where
  n_layers : Nat
  max_seq_len : Nat
  n_kv_heads : Nat
  head_dim : Nat
  cursor : Nat

def KvCache.new (n_layers max_seq_len n_kv_heads head_dim : Nat) : KvCache :=
  { n_layers := n_layers, max_seq_len := max_seq_len,
    n_kv_heads := n_kv_heads, head_dim := head_dim, cursor := 0 }

/-- The sampler configuration passed to `Sampler::new`
(`lib.rs` lines 116–122). -/
structure SamplerConfig where
  temperature : Rat
  top_p : Rat
  top_k : Nat
  repeat_penalty : Rat
  repeat_last_n : Nat
  deriving DecidableEq, Repr

/-- Index of the first maximal entry, accumulator form. -/
def argmaxAux : List Rat → Nat → Nat → Rat → Nat
  | [], _, best, _ => best
  | x :: xs, i, best, bv =>
    if bv < x then argmaxAux xs (i + 1) i x else argmaxAux xs (i + 1) best bv

/-- Index of the first maximal entry of a logits vector (0 when empty). -/
def argmaxIdx : List Rat → Nat
  | [] => 0
  | x :: xs => argmaxAux xs 1 0 x

/-- Modelled from the spec (§4.7): the `sampler` module is not in the
snapshot.  Per the spec the sampler reduces a logits vector plus the
recent-id window to one id through a seeded pseudo-random source whose seed
is fixed by the configuration, so for a fixed seed it is a deterministic
function of its inputs; it mutates only the logits buffer it is handed,
never its length.  `sampleFn` returns the chosen id together with the
post-call logits buffer, and `sample_len` records the length invariant.
The theorems below about `genSteps` hold for every `sampleFn` satisfying
that invariant. -/
structure Sampler where
  cfg : SamplerConfig
  sampleFn : List Rat → List Nat → Nat × List Rat
  sample_len : ∀ l r, (sampleFn l r).2.length = l.length

/-- Modelled from the spec (§4.7): `Sampler::new` fixes the configuration
(seed included).  The concrete choice function is arg-max — the spec's
`temperature → 0` case — and leaves the buffer unchanged; no theorem below
depends on this choice. -/
def Sampler.new (cfg : SamplerConfig) : Sampler :=
  { cfg := cfg, sampleFn := fun l _ => (argmaxIdx l, l),
    sample_len := fun _ _ => rfl }

/-- Brain engine configuration (`lib.rs` lines 26–33). -/
structure BrainConfig where
  threads : Nat
  max_tokens : Nat
  context_length : Nat
  temperature : Rat
  top_p : Rat
  json_mode : Bool
  deriving DecidableEq, Repr

/-- `impl Default for BrainConfig` (`lib.rs` lines 35–46). -/
def BrainConfig.default : BrainConfig :=
  { threads := 4, max_tokens := 256, context_length := 2048,
    temperature := 7 / 10, top_p := 9 / 10, json_mode := false }

/-- The field names of `BrainConfig` as declared in `lib.rs` lines 26–33 —
the configuration options the engine recognizes. -/
def brainConfigFields : List String :=
  ["threads", "max_tokens", "context_length", "temperature", "top_p",
   "json_mode"]

/-- The configuration options the spec (§6) says are recognized. -/
def specConfigFields : List String :=
  ["thread_count", "max_tokens", "context_length", "temperature", "top_p",
   "top_k", "repeat_penalty", "repeat_window", "structured_output_mode"]

/-- A loaded model ready for inference (`lib.rs` lines 56–69). -/
structure LoadedModel where
  mmap_model : MmapModel
  params : ModelParams
  tokenizer : BpeTokenizer
  kv_cache : KvCache
  sampler : Sampler
  path : String

/-- The main brain engine (`lib.rs` lines 49–53). -/
structure BrainEngine where
  config : BrainConfig
  model : Option LoadedModel

/-- `BrainEngine::new` (`lib.rs` lines 73–75). -/
def BrainEngine.new (config : BrainConfig) : BrainEngine :=
  { config := config, model := none }

/-- `BrainEngine::load_model` (`lib.rs` lines 86–135).  The outcome of
`mmap::MmapModel::load(model_path)` (the `mmap` module is not in the
snapshot) is passed in as `mmapResult`; the `?` on it propagates the error
with `self` untouched.  A tokenizer failure is absorbed by
`unwrap_or_else(... fallback)` after a `tracing::warn!` log line; nothing
else in the function is fallible.  Returns the `Result<()>` together with
the updated engine (`&mut self`). -/
def BrainEngine.load_model (e : BrainEngine) (model_path : String)
    (mmapResult : Except BizClawError MmapModel) :
    Except BizClawError Unit × BrainEngine :=
  match mmapResult with
  | Except.error err => (Except.error err, e)
  | Except.ok mmap_model =>
    let params := ModelParams.from_gguf mmap_model.gguf
    let tokenizer :=
      match BpeTokenizer.from_gguf mmap_model.gguf with
      | Except.ok t => t
      | Except.error _ => BpeTokenizer.fallback
    let kv_cache := KvCache.new params.n_layers params.max_seq_len
      params.n_kv_heads params.head_dim
    let sampler := Sampler.new
      { temperature := e.config.temperature, top_p := e.config.top_p,
        top_k := 40, repeat_penalty := 11 / 10, repeat_last_n := 64 }
    let loaded : LoadedModel :=
      { mmap_model := mmap_model, params := params, tokenizer := tokenizer,
        kv_cache := kv_cache, sampler := sampler, path := model_path }
    (Except.ok (), { e with model := some loaded })

/-- `BrainEngine::load` (`lib.rs` lines 78–83): default config, fresh
engine, `load_model`, `?`. -/
def BrainEngine.load (model_path : String)
    (mmapResult : Except BizClawError MmapModel) :
    Except BizClawError BrainEngine :=
  match (BrainEngine.new BrainConfig.default).load_model model_path
      mmapResult with
  | (Except.error err, _) => Except.error err
  | (Except.ok _, e) => Except.ok e

/-- `BrainEngine::is_loaded` (`lib.rs` lines 138–140). -/
def BrainEngine.is_loaded (e : BrainEngine) : Bool :=
  e.model.isSome

/-- The loop body of `forward_token` (`lib.rs` lines 221–223):
`for i in 0..vocab_size.min(logits.len()) { logits[i] = 0.0; }` — zero the
first `min (n, length)` entries. -/
def zeroFill : Nat → List Rat → List Rat
  | _, [] => []
  | 0, l => l
  | n + 1, _ :: xs => 0 :: zeroFill n xs

/-- `BrainEngine::forward_token` (`lib.rs` lines 197–226): the forward pass
is stubbed — it ignores the token, the position and the tensor data, writes
0.0 into every logit slot up to `vocab_size.min(logits.len())`, and returns
`Ok(())`.  Embedded as returning the updated buffer. -/
def forward_token (model : LoadedModel) (_token : Nat) (_pos : Nat)
    (logits : List Rat) : Except BizClawError (List Rat) :=
  Except.ok (zeroFill model.params.vocab_size logits)

/-- The generation loop of `BrainEngine::generate` (`lib.rs` lines
161–189), one constructor case per remaining iteration (`fuel` starts at
`max_gen`, `step` at 0).  Each iteration picks the token to process
(`input_tokens[step]`, else the last emitted token, else breaks), runs
`forward_token` through `?`, and — once all input tokens are processed
(`step >= input_tokens.len() - 1`; callers pass a BOS-prefixed, hence
nonempty, input) — samples the next id, breaking on EOS. -/
def genSteps (model : LoadedModel) (input : List Nat) :
    Nat → Nat → List Nat → List Rat → Except BizClawError (List Nat)
  | 0, _, out, _ => Except.ok out
  | fuel + 1, step, out, logits =>
    let tokenOpt : Option Nat :=
      if step < input.length then some (input.getD step 0) else out.getLast?
    match tokenOpt with
    | none => Except.ok out
    | some token =>
      match forward_token model token step logits with
      | Except.error err => Except.error err
      | Except.ok logits1 =>
        if input.length - 1 ≤ step then
          let s := model.sampler.sampleFn logits1 (input ++ out)
          if s.1 = model.tokenizer.eos_id then Except.ok out
          else genSteps model input fuel (step + 1) (out ++ [s.1]) s.2
        else genSteps model input fuel (step + 1) out logits1

/-- The token-producing part of `BrainEngine::generate` (`lib.rs` lines
143–189): BOS-prefixed tokenized prompt, `max_gen = max_tokens.min
(config.max_tokens)`, logits buffer `vec![0.0; vocab_size]`, then the loop. -/
def BrainEngine.generate_tokens (e : BrainEngine) (prompt : List Nat)
    (max_tokens : Nat) : Except BizClawError (List Nat) :=
  match e.model with
  | none => Except.error (BizClawError.brain "Model not loaded")
  | some model =>
    let input_tokens := model.tokenizer.bos_id :: model.tokenizer.encode prompt
    let max_gen := min max_tokens e.config.max_tokens
    genSteps model input_tokens max_gen 0 []
      (List.replicate model.params.vocab_size 0)

/-- `BrainEngine::generate` (`lib.rs` lines 143–194): the emitted token ids,
decoded. -/
def BrainEngine.generate (e : BrainEngine) (prompt : List Nat)
    (max_tokens : Nat) : Except BizClawError (List Nat) :=
  match e.model with
  | none => Except.error (BizClawError.brain "Model not loaded")
  | some model =>
    match e.generate_tokens prompt max_tokens with
    | Except.error err => Except.error err
    | Except.ok out => Except.ok (model.tokenizer.decode out)

/-- Minimal embedding of `serde_json::Value` as used by `generate_json`
(string payloads are byte strings, per the string convention). -/
inductive JsonValue where
  | str : List Nat → JsonValue
  | obj : List (String × JsonValue) → JsonValue

/-- `BrainEngine::generate_json` (`lib.rs` lines 229–232): plain `generate`
with the engine-level `max_tokens`, wrapped in the fixed
`{"response": text}` envelope.  No grammar state is consulted. -/
def BrainEngine.generate_json (e : BrainEngine) (prompt : List Nat) :
    Except BizClawError JsonValue :=
  match e.generate prompt e.config.max_tokens with
  | Except.error err => Except.error err
  | Except.ok text => Except.ok (JsonValue.obj [("response", JsonValue.str text)])

/-- `BrainEngine::model_info` (`lib.rs` lines 240–250): a formatted string
`"{file_name} ({size/1024/1024}MB, {n_layers} layers, {n_heads} heads)"`
when a model is loaded (paths are modelled by their file-name component). -/
def BrainEngine.model_info (e : BrainEngine) : Option String :=
  e.model.map fun m =>
    m.path ++ " (" ++ toString (m.mmap_model.file_size / 1024 / 1024)
      ++ "MB, " ++ toString m.params.n_layers ++ " layers, "
      ++ toString m.params.n_heads ++ " heads)"

/-- Sampler configuration of the loaded model, if any (observation helper). -/
def samplerCfgOf (e : BrainEngine) : Option SamplerConfig :=
  e.model.map fun m => m.sampler.cfg

/-- Tokenizer of the loaded model, if any (observation helper). -/
def tokenizerOf (e : BrainEngine) : Option BpeTokenizer :=
  e.model.map fun m => m.tokenizer

/-- File size in bytes of the loaded model, if any (observation helper). -/
def fileSizeOf (e : BrainEngine) : Option Nat :=
  e.model.map fun m => m.mmap_model.file_size

/-- Everything `generate` reads from the engine besides the prompt and the
token budget: the configuration, and the loaded model's hyperparameters,
tokenizer and sampler.  The mapped tensor bytes, the path and the KV cache
are deliberately excluded; the determinism and weight-independence theorems
below show they do not influence the generated text. -/
def sessionInputs (e : BrainEngine) :
    BrainConfig × Option (ModelParams × BpeTokenizer × Sampler) :=
  (e.config, e.model.map fun m => (m.params, m.tokenizer, m.sampler))

/-- Replace the mapped tensor data of the loaded model (if any), leaving
every other component untouched. -/
def withMmap (e : BrainEngine) (mm : MmapModel) : BrainEngine :=
  { e with model := e.model.map fun m => { m with mmap_model := mm } }

/-- `genSteps` specialised to the observation that the sampler is only ever
handed the all-zero logits vector of length `vocab_size`: identical to
`genSteps` except that each sampling step explicitly receives
`List.replicate vocab_size 0`. -/
def genStepsUniform (model : LoadedModel) (input : List Nat) :
    Nat → Nat → List Nat → Except BizClawError (List Nat)
  | 0, _, out => Except.ok out
  | fuel + 1, step, out =>
    let tokenOpt : Option Nat :=
      if step < input.length then some (input.getD step 0) else out.getLast?
    match tokenOpt with
    | none => Except.ok out
    | some _ =>
      if input.length - 1 ≤ step then
        let s := model.sampler.sampleFn
          (List.replicate model.params.vocab_size 0) (input ++ out)
        if s.1 = model.tokenizer.eos_id then Except.ok out
        else genStepsUniform model input fuel (step + 1) (out ++ [s.1])
      else genStepsUniform model input fuel (step + 1) out

/-- Concrete tokenizer with one merge rule, used to exercise the round-trip
theorem: bytes 0 and 1 are their own tokens and the pair `0 1` merges into
token 2 whose string is `[0, 1]`. -/
def tokW2 : BpeTokenizer :=
  { vocab := [[0], [1], [0, 1]], merges := [(0, 1, 2)], byte_ids := [0, 1],
    unk_id := 0, bos_id := 1, eos_id := 2 }

/-- Concrete merge-free tokenizer for the engine witnesses: ids 0, 1, 2 are
the byte strings `[0]`, `[1]`, `[2]`; BOS is 1, EOS is 2. -/
def tokW : BpeTokenizer :=
  { vocab := [[0], [1], [2]], merges := [], byte_ids := [0, 1, 2],
    unk_id := 0, bos_id := 1, eos_id := 2 }

/-- Concrete hyperparameters for the witnesses. -/
def paramsW : ModelParams :=
  { dim := 8, n_layers := 2, n_heads := 4, n_kv_heads := 2, head_dim := 2,
    vocab_size := 3, max_seq_len := 16 }

/-- Concrete mapped file with a valid tokenizer section. -/
def mmGood : MmapModel :=
  { gguf := { params_meta := paramsW, tokenizerSection := some tokW },
    fsize := 1048576, data := [7] }

/-- Same container as `mmGood` but with a different file size (both sizes
integer-divide to 1 MB). -/
def mmGood2 : MmapModel :=
  { gguf := { params_meta := paramsW, tokenizerSection := some tokW },
    fsize := 2097151, data := [7] }

/-- Same container as `mmGood` but with different raw tensor bytes. -/
def mmAlt : MmapModel :=
  { gguf := { params_meta := paramsW, tokenizerSection := some tokW },
    fsize := 1048576, data := [9, 9] }

/-- Concrete mapped file whose tokenizer section is absent/malformed. -/
def mmBad : MmapModel :=
  { gguf := { params_meta := paramsW, tokenizerSection := none },
    fsize := 1048576, data := [7] }

/-- Concrete engine configuration for the witnesses (`max_tokens := 3`). -/
def cfgW : BrainConfig :=
  { threads := 1, max_tokens := 3, context_length := 8, temperature := 1,
    top_p := 1, json_mode := false }

/-- Concrete configuration exercising every field, first variant. -/
def cfgA : BrainConfig :=
  { threads := 1, max_tokens := 10, context_length := 100,
    temperature := 1 / 2, top_p := 1 / 3, json_mode := true }

/-- Concrete configuration exercising every field, second variant. -/
def cfgB : BrainConfig :=
  { threads := 2, max_tokens := 20, context_length := 200,
    temperature := 1 / 4, top_p := 1 / 5, json_mode := false }

/-- Concrete loaded model (what `load_model cfgW (.ok mmGood)` builds). -/
def modelW : LoadedModel :=
  { mmap_model := mmGood, params := paramsW, tokenizer := tokW,
    kv_cache := KvCache.new 2 16 2 2,
    sampler := Sampler.new
      { temperature := 1, top_p := 1, top_k := 40, repeat_penalty := 11 / 10,
        repeat_last_n := 64 },
    path := "model.gguf" }

/-- `modelW` with different mapped tensor bytes. -/
def modelWd : LoadedModel :=
  { modelW with mmap_model := mmAlt }

/-- `modelW` with a different (larger) file size. -/
def modelW2 : LoadedModel :=
  { modelW with mmap_model := mmGood2 }

/-- Concrete unloaded engine. -/
def engineU : BrainEngine :=
  BrainEngine.new cfgW

/-- Concrete loaded engine. -/
def engineW : BrainEngine :=
  { config := cfgW, model := some modelW }

/-- `engineW` with different mapped tensor bytes. -/
def engineWd : BrainEngine :=
  { config := cfgW, model := some modelWd }

/-- `engineW` with a different file size. -/
def engineW2 : BrainEngine :=
  { config := cfgW, model := some modelW2 }

theorem zeroFill_length : ∀ (n : Nat) (l : List Rat),
    (zeroFill n l).length = l.length
  | n, [] => by cases n <;> rfl
  | 0, _ :: _ => rfl
  | n + 1, _ :: xs => by
    simp only [zeroFill, List.length_cons, zeroFill_length n xs]

theorem zeroFill_eq_replicate : ∀ (n : Nat) (l : List Rat), l.length = n →
    zeroFill n l = List.replicate n 0
  | n, [], h => by
    cases h
    rfl
  | 0, x :: xs, h => by
    simp at h
  | n + 1, x :: xs, h => by
    simp only [zeroFill, List.replicate]
    rw [zeroFill_eq_replicate n xs (by simpa using h)]

theorem zeroFill_getD : ∀ (n : Nat) (l : List Rat) (i : Nat),
    i < min n l.length → (zeroFill n l).getD i 1 = 0
  | _, [], i, h => by simp at h
  | 0, _ :: _, i, h => by simp at h
  | _ + 1, _ :: _, 0, _ => rfl
  | n + 1, x :: xs, i + 1, h => by
    have hi : i < min n xs.length := by
      simp only [List.length_cons, Nat.lt_min] at h ⊢
      omega
    simpa [zeroFill] using zeroFill_getD n xs i hi

theorem decode_cons (t : BpeTokenizer) (id : Nat) (toks : List Nat) :
    t.decode (id :: toks) = t.tokenStr id ++ t.decode toks :=
  rfl

theorem applyRuleOnce_decode (t : BpeTokenizer) (a b c : Nat)
    (h : t.tokenStr c = t.tokenStr a ++ t.tokenStr b) :
    ∀ (toks toks' : List Nat), applyRuleOnce a b c toks = some toks' →
      t.decode toks' = t.decode toks
  | [], _, h' => by simp [applyRuleOnce] at h'
  | [_], _, h' => by simp [applyRuleOnce] at h'
  | x :: y :: rest, toks', h' => by
    by_cases hxy : x = a ∧ y = b
    · simp only [applyRuleOnce, if_pos hxy] at h'
      cases h'
      obtain ⟨hx, hy⟩ := hxy
      subst hx
      subst hy
      simp only [decode_cons, h, List.append_assoc]
    · simp only [applyRuleOnce, if_neg hxy] at h'
      cases hrec : applyRuleOnce a b c (y :: rest) with
      | none => rw [hrec] at h'; simp at h'
      | some u =>
        rw [hrec] at h'
        have h2 : x :: u = toks' := by simpa using h'
        subst h2
        rw [decode_cons, decode_cons,
          applyRuleOnce_decode t a b c h (y :: rest) u hrec]

theorem findMerge_decode (t : BpeTokenizer) :
    ∀ (merges : List (Nat × Nat × Nat)) (toks toks' : List Nat),
      (∀ r ∈ merges, t.tokenStr r.2.2 = t.tokenStr r.1 ++ t.tokenStr r.2.1) →
      findMerge merges toks = some toks' → t.decode toks' = t.decode toks
  | [], toks, toks', _, h' => by simp [findMerge] at h'
  | (a, b, c) :: rest, toks, toks', hm, h' => by
    cases hr : applyRuleOnce a b c toks with
    | some u =>
      simp only [findMerge, hr] at h'
      have h2 : u = toks' := by simpa using h'
      subst h2
      exact applyRuleOnce_decode t a b c (hm (a, b, c) (by simp)) toks u hr
    | none =>
      simp only [findMerge, hr] at h'
      exact findMerge_decode t rest toks toks'
        (fun r hrr => hm r (List.mem_cons_of_mem _ hrr)) h'

theorem applyMerges_decode (t : BpeTokenizer)
    (hm : ∀ r ∈ t.merges, t.tokenStr r.2.2 = t.tokenStr r.1 ++ t.tokenStr r.2.1) :
    ∀ (fuel : Nat) (toks : List Nat),
      t.decode (applyMerges t.merges fuel toks) = t.decode toks
  | 0, _ => rfl
  | fuel + 1, toks => by
    cases hf : findMerge t.merges toks with
    | none => simp [applyMerges, hf]
    | some u =>
      simp only [applyMerges, hf]
      rw [applyMerges_decode t hm fuel u,
        findMerge_decode t t.merges toks u hm hf]

theorem decode_byteMap (t : BpeTokenizer) :
    ∀ (s : List Nat),
      (∀ b ∈ s, t.tokenStr (t.byte_ids.getD b t.unk_id) = [b]) →
      t.decode (s.map fun b => t.byte_ids.getD b t.unk_id) = s
  | [], _ => rfl
  | b :: s, h => by
    simp only [List.map_cons, decode_cons]
    rw [h b (by simp), decode_byteMap t s (fun b' hb => h b' (by simp [hb]))]
    rfl

/-- Claim C5: for every supported string (every byte of `s` has a
single-byte token reachable through the byte table, and every merge rule
concatenates exactly the strings of the tokens it merges), decoding the
encoding of `s` yields `s` exactly. -/
theorem C5_tokenizer_roundtrip (t : BpeTokenizer) (s : List Nat)
    (hm : ∀ r ∈ t.merges, t.tokenStr r.2.2 = t.tokenStr r.1 ++ t.tokenStr r.2.1)
    (hb : ∀ b ∈ s, t.tokenStr (t.byte_ids.getD b t.unk_id) = [b]) :
    t.decode (t.encode s) = s := by
  unfold BpeTokenizer.encode
  rw [applyMerges_decode t hm, decode_byteMap t s hb]

/-- Witness for C5 on the concrete tokenizer `tokW2` (one merge rule) and
the string `[0, 1, 0]`, whose encoding actually exercises the merge. -/
theorem C5_tokenizer_roundtrip_witness :
    (∀ r ∈ tokW2.merges,
      tokW2.tokenStr r.2.2 = tokW2.tokenStr r.1 ++ tokW2.tokenStr r.2.1)
    ∧ (∀ b ∈ [0, 1, 0],
      tokW2.tokenStr (tokW2.byte_ids.getD b tokW2.unk_id) = [b])
    ∧ tokW2.decode (tokW2.encode [0, 1, 0]) = [0, 1, 0] :=
  ⟨by decide, by decide,
    C5_tokenizer_roundtrip tokW2 [0, 1, 0] (by decide) (by decide)⟩

/-- Claim C1: on an engine with no loaded model, `generate` returns the
ModelNotLoadedError (`BizClawError::Brain("Model not loaded")`) for every
prompt and every token budget, and never succeeds with text. -/
theorem C1_generate_not_loaded (e : BrainEngine) (prompt : List Nat)
    (max_tokens : Nat) (h : e.model = none) :
    e.generate prompt max_tokens
      = Except.error (BizClawError.brain "Model not loaded")
    ∧ ∀ out, e.generate prompt max_tokens ≠ Except.ok out := by
  have hg : e.generate prompt max_tokens
      = Except.error (BizClawError.brain "Model not loaded") := by
    unfold BrainEngine.generate
    rw [h]
  exact ⟨hg, fun out hok => by rw [hg] at hok; cases hok⟩

/-- Witness for C1 on the concrete unloaded engine `engineU`. -/
theorem C1_generate_not_loaded_witness :
    engineU.model = none
    ∧ engineU.generate [0, 1] 5
      = Except.error (BizClawError.brain "Model not loaded") :=
  ⟨rfl, (C1_generate_not_loaded engineU [0, 1] 5 rfl).1⟩

/-- Claim C2: when `load_model` fails (the only fallible step is the
mmap/parse of the file; a tokenizer failure is absorbed by the fallback),
the engine value is returned untouched, so an engine that was not loaded
before the call is still not loaded after it — no partially-initialized
model is retained. -/
theorem C2_load_error_atomic (e : BrainEngine) (path : String)
    (mmapResult : Except BizClawError MmapModel) (err : BizClawError)
    (hnone : e.model = none)
    (herr : (e.load_model path mmapResult).1 = Except.error err) :
    (e.load_model path mmapResult).2 = e
    ∧ (e.load_model path mmapResult).2.is_loaded = false := by
  cases mmapResult with
  | error e' =>
    refine ⟨rfl, ?_⟩
    show e.is_loaded = false
    unfold BrainEngine.is_loaded
    rw [hnone]
    rfl
  | ok mm =>
    exact absurd herr (by simp [BrainEngine.load_model])

/-- Witness for C2: a concrete failing mmap load on the unloaded engine
`engineU` leaves it unloaded. -/
theorem C2_load_error_atomic_witness :
    engineU.model = none
    ∧ (engineU.load_model "m.gguf"
        (Except.error (BizClawError.ioError "missing"))).1
      = Except.error (BizClawError.ioError "missing")
    ∧ (engineU.load_model "m.gguf"
        (Except.error (BizClawError.ioError "missing"))).2.is_loaded = false :=
  ⟨rfl, rfl,
    (C2_load_error_atomic engineU "m.gguf"
      (Except.error (BizClawError.ioError "missing"))
      (BizClawError.ioError "missing") rfl rfl).2⟩

theorem genSteps_length (model : LoadedModel) (input : List Nat) :
    ∀ (fuel step : Nat) (out : List Nat) (logits : List Rat) (res : List Nat),
      genSteps model input fuel step out logits = Except.ok res →
      res.length ≤ out.length + fuel := by
  intro fuel
  induction fuel with
  | zero =>
    intro step out logits res h
    simp only [genSteps] at h
    cases h
    simp
  | succ fuel ih =>
    intro step out logits res h
    simp only [genSteps, forward_token] at h
    split at h
    · cases h
      simp
    · split at h
      · split at h
        · cases h
          simp
        · have hrec := ih (step + 1) _ _ res h
          simp only [List.length_append, List.length_cons,
            List.length_nil] at hrec ⊢
          omega
      · have hrec := ih (step + 1) out _ res h
        omega

/-- Claim C10: for every loaded engine, `generate` emits at most
`min(max_tokens, config.max_tokens)` tokens — the engine-level configured
`max_tokens` silently caps any larger per-call request. -/
theorem C10_max_tokens_cap (e : BrainEngine) (prompt : List Nat)
    (max_tokens : Nat) (out : List Nat)
    (h : e.generate_tokens prompt max_tokens = Except.ok out) :
    out.length ≤ min max_tokens e.config.max_tokens := by
  unfold BrainEngine.generate_tokens at h
  cases hm : e.model with
  | none =>
    rw [hm] at h
    cases h
  | some model =>
    rw [hm] at h
    simpa using genSteps_length model _ (min max_tokens e.config.max_tokens)
      0 [] _ out h

/-- Witness for C10: the concrete engine `engineW` (configured
`max_tokens := 3`) asked for 2 tokens emits exactly 2, within the cap. -/
theorem C10_max_tokens_cap_witness :
    engineW.generate_tokens [] 2 = Except.ok [0, 0]
    ∧ [0, 0].length ≤ min 2 engineW.config.max_tokens :=
  ⟨rfl, C10_max_tokens_cap engineW [] 2 [0, 0] rfl⟩

theorem genSteps_congr (m₁ m₂ : LoadedModel) (hs : m₁.sampler = m₂.sampler)
    (ht : m₁.tokenizer = m₂.tokenizer)
    (hv : m₁.params.vocab_size = m₂.params.vocab_size) :
    ∀ (input : List Nat) (fuel step : Nat) (out : List Nat)
      (logits : List Rat),
      genSteps m₁ input fuel step out logits
        = genSteps m₂ input fuel step out logits := by
  intro input fuel
  induction fuel with
  | zero =>
    intro step out logits
    rfl
  | succ fuel ih =>
    intro step out logits
    simp only [genSteps, forward_token, hs, ht, hv]
    split
    · rfl
    · split
      · split
        · rfl
        · exact ih (step + 1) _ _
      · exact ih (step + 1) out _

theorem generate_congr (e₁ e₂ : BrainEngine)
    (h : sessionInputs e₁ = sessionInputs e₂) (prompt : List Nat)
    (max_tokens : Nat) :
    e₁.generate prompt max_tokens = e₂.generate prompt max_tokens := by
  unfold sessionInputs at h
  have hc : e₁.config = e₂.config := congrArg Prod.fst h
  have hm : e₁.model.map (fun m => (m.params, m.tokenizer, m.sampler))
      = e₂.model.map (fun m => (m.params, m.tokenizer, m.sampler)) :=
    congrArg Prod.snd h
  cases h₁ : e₁.model with
  | none =>
    cases h₂ : e₂.model with
    | none =>
      unfold BrainEngine.generate
      rw [h₁, h₂]
    | some m₂ =>
      rw [h₁, h₂] at hm
      simp at hm
  | some m₁ =>
    cases h₂ : e₂.model with
    | none =>
      rw [h₁, h₂] at hm
      simp at hm
    | some m₂ =>
      rw [h₁, h₂] at hm
      simp only [Option.map_some', Option.some.injEq, Prod.mk.injEq] at hm
      obtain ⟨hp, ht, hsamp⟩ := hm
      simp only [BrainEngine.generate, BrainEngine.generate_tokens, h₁, h₂]
      rw [hc, ht, hp, genSteps_congr m₁ m₂ hsamp ht (by rw [hp])]

/-- Claim C4: with the seed fixed by the configuration, `generate` is
deterministic — its result is a function of the components listed by
`sessionInputs` (configuration, hyperparameters, tokenizer, sampler) alone,
so two calls with identical inputs return identical text.  `generate` takes
the engine immutably and the sampler (modelled from the spec: its module is
not in the snapshot) draws from a seeded source fixed at construction, so
nothing mutable survives between the two calls. -/
theorem C4_generate_deterministic (e₁ e₂ : BrainEngine) (prompt : List Nat)
    (max_tokens : Nat) (h : sessionInputs e₁ = sessionInputs e₂) :
    e₁.generate prompt max_tokens = e₂.generate prompt max_tokens :=
  generate_congr e₁ e₂ h prompt max_tokens

/-- Witness for C4: `engineW` and `engineWd` differ in their mapped tensor
bytes but share all session inputs; generation agrees. -/
theorem C4_generate_deterministic_witness :
    sessionInputs engineW = sessionInputs engineWd
    ∧ engineW.generate [0] 2 = engineWd.generate [0] 2 :=
  ⟨rfl, C4_generate_deterministic engineW engineWd [0] 2 rfl⟩

theorem genSteps_uniform (model : LoadedModel) (input : List Nat) :
    ∀ (fuel step : Nat) (out : List Nat) (logits : List Rat),
      logits.length = model.params.vocab_size →
      genSteps model input fuel step out logits
        = genStepsUniform model input fuel step out := by
  intro fuel
  induction fuel with
  | zero =>
    intro step out logits _
    rfl
  | succ fuel ih =>
    intro step out logits hlen
    simp only [genSteps, genStepsUniform, forward_token]
    rw [zeroFill_eq_replicate _ _ hlen]
    split
    · rfl
    · split
      · split
        · rfl
        · exact ih (step + 1) _ _
            (by rw [model.sampler.sample_len]; simp)
      · exact ih (step + 1) out _ (by simp)

theorem sessionInputs_withMmap (e : BrainEngine) (mm : MmapModel) :
    sessionInputs (withMmap e mm) = sessionInputs e := by
  rcases he : e.model with _ | m <;>
    simp [sessionInputs, withMmap, he]

/-- Claim C9: `forward_token` always succeeds; the logits it is asked to
fill (indices below `vocab_size.min(logits.len())`) all equal 0, with the
buffer length preserved and the result independent of the token id, the
position and the loaded model's tensor data; consequently every sampling
step inside `generate` receives the all-zero logits vector (`genSteps`
coincides with `genStepsUniform`, which hands the sampler
`List.replicate vocab_size 0` at every step), and the generated ids do not
depend on the mapped tensor bytes. -/
theorem C9_forward_token_stub :
    (∀ (model : LoadedModel) (token pos : Nat) (logits : List Rat),
      ∃ logits', forward_token model token pos logits = Except.ok logits'
        ∧ logits'.length = logits.length
        ∧ ∀ i, i < min model.params.vocab_size logits.length →
            logits'.getD i 1 = 0)
    ∧ (∀ (m₁ m₂ : LoadedModel) (t₁ t₂ p₁ p₂ : Nat) (logits : List Rat),
        m₁.params.vocab_size = m₂.params.vocab_size →
        forward_token m₁ t₁ p₁ logits = forward_token m₂ t₂ p₂ logits)
    ∧ (∀ (model : LoadedModel) (input : List Nat) (fuel step : Nat)
        (out : List Nat) (logits : List Rat),
        logits.length = model.params.vocab_size →
        genSteps model input fuel step out logits
          = genStepsUniform model input fuel step out)
    ∧ (∀ (e : BrainEngine) (mm : MmapModel) (prompt : List Nat)
        (max_tokens : Nat),
        (withMmap e mm).generate prompt max_tokens
          = e.generate prompt max_tokens) := by
  refine ⟨?_, ?_, genSteps_uniform, ?_⟩
  · intro model token pos logits
    exact ⟨_, rfl, zeroFill_length _ _, fun i hi => zeroFill_getD _ _ i hi⟩
  · intro m₁ m₂ t₁ t₂ p₁ p₂ logits hv
    unfold forward_token
    rw [hv]
  · intro e mm prompt mt
    exact generate_congr (withMmap e mm) e (sessionInputs_withMmap e mm)
      prompt mt

/-- Witness for C9 at concrete inputs: the stubbed forward pass agrees
across models with different tensor bytes, the loop only ever samples from
the uniform logits vector, and swapping the tensor bytes of `engineW` does
not change the generated text. -/
theorem C9_forward_token_stub_witness :
    modelW.params.vocab_size = modelWd.params.vocab_size
    ∧ (List.replicate 3 (0 : Rat)).length = modelW.params.vocab_size
    ∧ forward_token modelW 7 1 [1, 2] = forward_token modelWd 9 5 [1, 2]
    ∧ genSteps modelW [1] 2 0 [] (List.replicate 3 0)
        = genStepsUniform modelW [1] 2 0 []
    ∧ (withMmap engineW mmAlt).generate [0] 2 = engineW.generate [0] 2 :=
  ⟨rfl, rfl,
    C9_forward_token_stub.2.1 modelW modelWd 7 9 1 5 [1, 2] rfl,
    C9_forward_token_stub.2.2.1 modelW [1] 2 0 [] (List.replicate 3 0) rfl,
    C9_forward_token_stub.2.2.2 engineW mmAlt [0] 2⟩

/-- Claim C3 (code bug), evaluated at a concrete loaded engine: despite its
"JSON grammar constraint" doc comment, `generate_json` returns exactly the
unconstrained `generate` output wrapped in the fixed `{"response": text}`
envelope — no grammar state is consulted and no GrammarError can arise. -/
theorem C3_generate_json_unconstrained :
    engineW.generate_json [0]
      = Except.ok (JsonValue.obj [("response", JsonValue.str [0, 0])])
    ∧ engineW.generate [0] engineW.config.max_tokens = Except.ok [0, 0] :=
  ⟨rfl, rfl⟩

/-- Claim C6 (corrected) counterexample: the recognized options are the six
`BrainConfig` fields, not the nine the spec lists; and the sampler built by
`load_model` carries `top_k = 40`, `repeat_penalty = 1.1`,
`repeat_last_n = 64` under two entirely different caller configurations
(`cfgA`, `cfgB` differ in every field) — those knobs are constants, not
caller-configurable. -/
theorem C6_config_counterexample :
    brainConfigFields ≠ specConfigFields
    ∧ samplerCfgOf ((BrainEngine.new cfgA).load_model "m.gguf"
        (Except.ok mmGood)).2
      = some { temperature := 1 / 2, top_p := 1 / 3, top_k := 40,
               repeat_penalty := 11 / 10, repeat_last_n := 64 }
    ∧ samplerCfgOf ((BrainEngine.new cfgB).load_model "m.gguf"
        (Except.ok mmGood)).2
      = some { temperature := 1 / 4, top_p := 1 / 5, top_k := 40,
               repeat_penalty := 11 / 10, repeat_last_n := 64 } :=
  ⟨by decide, rfl, rfl⟩

/-- Claim C6 (amended): the recognized configuration options are exactly the
six fields of `BrainConfig` — threads, max_tokens, context_length,
temperature, top_p, json_mode; `load_model` forwards only temperature and
top_p into the sampler and fixes top_k = 40, repeat_penalty = 1.1 and
repeat_last_n = 64 as constants. -/
theorem C6_config_options (c : BrainConfig) (path : String) (mm : MmapModel) :
    samplerCfgOf ((BrainEngine.new c).load_model path (Except.ok mm)).2
      = some { temperature := c.temperature, top_p := c.top_p, top_k := 40,
               repeat_penalty := 11 / 10, repeat_last_n := 64 }
    ∧ brainConfigFields
      = ["threads", "max_tokens", "context_length", "temperature", "top_p",
         "json_mode"] :=
  ⟨rfl, rfl⟩

/-- Claim C7 (corrected) counterexample: `engineW` and `engineW2` are loaded
from files of different byte sizes (1048576 vs 2097151), yet `model_info`
returns the identical string — the exact size in bytes is not carried by the
returned value. -/
theorem C7_model_info_counterexample :
    engineW.model_info = engineW2.model_info
    ∧ fileSizeOf engineW ≠ fileSizeOf engineW2 :=
  ⟨rfl, by decide⟩

/-- Claim C7 (amended): for a loaded engine `model_info` returns Some
formatted string determined exactly by the file name, the size in whole
mebibytes (`size_bytes / 1024 / 1024`, an information-losing integer
division), the layer count and the head count; for an unloaded engine it
returns None. -/
theorem C7_model_info_fields :
    (∀ (e₁ e₂ : BrainEngine) (m₁ m₂ : LoadedModel),
      e₁.model = some m₁ → e₂.model = some m₂ →
      m₁.path = m₂.path →
      m₁.mmap_model.file_size / 1024 / 1024
        = m₂.mmap_model.file_size / 1024 / 1024 →
      m₁.params.n_layers = m₂.params.n_layers →
      m₁.params.n_heads = m₂.params.n_heads →
      e₁.model_info = e₂.model_info)
    ∧ ∀ (e : BrainEngine), e.model = none → e.model_info = none := by
  constructor
  · intro e₁ e₂ m₁ m₂ h₁ h₂ hp hs hl hh
    unfold BrainEngine.model_info
    rw [h₁, h₂]
    simp only [Option.map_some']
    rw [hp, hs, hl, hh]
  · intro e h
    unfold BrainEngine.model_info
    rw [h]
    rfl

/-- Witness for C7 on `engineW` / `engineW2`: different byte sizes, same
mebibyte count, identical `model_info`. -/
theorem C7_model_info_fields_witness :
    engineW.model = some modelW
    ∧ engineW2.model = some modelW2
    ∧ modelW.mmap_model.file_size / 1024 / 1024
        = modelW2.mmap_model.file_size / 1024 / 1024
    ∧ engineW.model_info = engineW2.model_info :=
  ⟨rfl, rfl, by decide,
    C7_model_info_fields.1 engineW engineW2 modelW modelW2 rfl rfl rfl
      (by decide) rfl rfl⟩

/-- Claim C8 (corrected) counterexample: loading a file whose tokenizer
section is absent/malformed (`mmBad`) succeeds with the fallback tokenizer
(the tokenizers of the two resulting engines differ), yet every caller-
visible outcome — the load result, `is_loaded`, the config and
`model_info` — is identical to loading the well-formed `mmGood`: the
degraded mode is not reported to the caller nor queryable afterwards. -/
theorem C8_fallback_counterexample :
    ((BrainEngine.new cfgW).load_model "model.gguf" (Except.ok mmBad)).1
      = Except.ok ()
    ∧ ((BrainEngine.new cfgW).load_model "model.gguf" (Except.ok mmBad)).1
      = ((BrainEngine.new cfgW).load_model "model.gguf" (Except.ok mmGood)).1
    ∧ ((BrainEngine.new cfgW).load_model "model.gguf"
        (Except.ok mmBad)).2.is_loaded
      = ((BrainEngine.new cfgW).load_model "model.gguf"
        (Except.ok mmGood)).2.is_loaded
    ∧ ((BrainEngine.new cfgW).load_model "model.gguf"
        (Except.ok mmBad)).2.config
      = ((BrainEngine.new cfgW).load_model "model.gguf"
        (Except.ok mmGood)).2.config
    ∧ ((BrainEngine.new cfgW).load_model "model.gguf"
        (Except.ok mmBad)).2.model_info
      = ((BrainEngine.new cfgW).load_model "model.gguf"
        (Except.ok mmGood)).2.model_info
    ∧ tokenizerOf ((BrainEngine.new cfgW).load_model "model.gguf"
        (Except.ok mmBad)).2
      ≠ tokenizerOf ((BrainEngine.new cfgW).load_model "model.gguf"
        (Except.ok mmGood)).2 :=
  ⟨rfl, rfl, rfl, rfl, rfl, by decide⟩

/-- Claim C8 (amended): when the file's tokenizer section is absent or
malformed, load still succeeds using the byte-level fallback tokenizer, but
the degraded mode is reported only as a warning log line — the load result
is the same `Ok(())` as a normal load and the engine merely stores the
fallback tokenizer, with no queryable degraded flag. -/
theorem C8_fallback_silent (c : BrainConfig) (path : String) (mm : MmapModel)
    (h : mm.gguf.tokenizerSection = none) :
    ((BrainEngine.new c).load_model path (Except.ok mm)).1 = Except.ok ()
    ∧ ((BrainEngine.new c).load_model path (Except.ok mm)).2.is_loaded = true
    ∧ tokenizerOf ((BrainEngine.new c).load_model path (Except.ok mm)).2
      = some BpeTokenizer.fallback := by
  refine ⟨rfl, rfl, ?_⟩
  simp [tokenizerOf, BrainEngine.load_model, BpeTokenizer.from_gguf, h]

/-- Witness for C8 on the concrete malformed file `mmBad`. -/
theorem C8_fallback_silent_witness :
    mmBad.gguf.tokenizerSection = none
    ∧ tokenizerOf ((BrainEngine.new cfgW).load_model "model.gguf"
        (Except.ok mmBad)).2 = some BpeTokenizer.fallback :=
  ⟨rfl, (C8_fallback_silent cfgW "model.gguf" mmBad rfl).2.2⟩
